import Mathlib

/-!
Verification development for the AutoAssess dashboard client
(`frontend/js/dashboard.js`).

The JavaScript source is shallowly embedded: JS numbers are modelled as `ℚ`
(no floating point behaviour is relevant to any property below), JS strings as
`String`, absent (`undefined`/`null`) values as `Option`, and the DOM-free
state (the module-level `submissions`, `statistics`, `monitoringActive`,
`sortColumn`, `sortDirection` variables plus the last rendered table body) as
explicit structures.  Network responses are modelled as an inductive input to
the pure transition functions.  Notifications emitted by `showNotification`
are collected in output lists.
-/

namespace Dashboard

/-! ### JS primitives -/

/-- JS `a || b` for string-valued `a` that may be `undefined`/`null`:
the only falsy string is `""`. -/
def jsOrStr (o : Option String) (d : String) : String :=
  match o with
  | some s => if s = "" then d else s
  | none => d

/-- JS `a || b` for number-valued `a` that may be absent: `0` is falsy but
`0 || 0 = 0`, so absent and `0` both yield the default `0` used at the call
sites below. -/
def jsOrNumZero (o : Option ℚ) : ℚ :=
  match o with
  | some q => q
  | none => 0

/-- JS `Number.prototype.toFixed(2)`: render with exactly two decimals,
rounding to the nearest hundredth (the float-level tie-breaking quirks of
`toFixed` are immaterial to every property proved below). -/
def toFixed2 (q : ℚ) : String :=
  let n : ℤ := round (q * 100)
  let sign := if n < 0 then "-" else ""
  let m := n.natAbs
  sign ++ toString (m / 100) ++ "." ++ (if m % 100 < 10 then "0" else "") ++ toString (m % 100)

/-- JS `Number.prototype.toFixed(1)`, as `toFixed2`. -/
def toFixed1 (q : ℚ) : String :=
  let n : ℤ := round (q * 10)
  let sign := if n < 0 then "-" else ""
  let m := n.natAbs
  sign ++ toString (m / 10) ++ "." ++ toString (m % 10)

/-- JS number-to-string interpolation.  Integral values print as integers;
the rendering of non-integral values is abstracted (no property below
depends on it). -/
def jsNumToString (q : ℚ) : String :=
  if q.den = 1 then toString q.num else toString q

/-- JS `String.prototype.toLowerCase`, modelled character-wise (the
claims only exercise ASCII text, where JS and `Char.toLower` agree). -/
def strToLower (s : String) : String :=
  String.mk (s.data.map Char.toLower)

/-- JS `String.prototype.toUpperCase`, as `strToLower`. -/
def strToUpper (s : String) : String :=
  String.mk (s.data.map Char.toUpper)

/-- Byte-wise prefix test on character lists (needle, haystack). -/
def chListPrefixCheck : List Char → List Char → Bool
  | [], _ => true
  | _ :: _, [] => false
  | a :: as, b :: bs => a = b && chListPrefixCheck as bs

/-- Substring occurrence test on character lists (needle, haystack). -/
def chListInfixCheck : List Char → List Char → Bool
  | n, [] => n.isEmpty
  | n, h :: hs => chListPrefixCheck n (h :: hs) || chListInfixCheck n hs

/-- JS `hay.includes(needle)`. -/
def strIncludes (hay needle : String) : Bool :=
  chListInfixCheck needle.data hay.data

/-- Three-way character comparison yielding `-1`, `0` or `1`. -/
def chCmp (a b : Char) : ℤ :=
  if a < b then -1 else if b < a then 1 else 0

/-- Lexicographic three-way comparison of character lists. -/
def strCmpAux : List Char → List Char → ℤ
  | [], [] => 0
  | [], _ :: _ => -1
  | _ :: _, [] => 1
  | a :: as, b :: bs => if chCmp a b = 0 then strCmpAux as bs else chCmp a b

/-- JS `a.localeCompare(b, undefined, {numeric:true, sensitivity:'base'})`,
modelled as case-insensitive code-point lexicographic comparison.  The
locale-specific collation and numeric-chunk handling are abstracted: every
property below only compares letter codes, for which this model and the JS
collator agree on sign. -/
def localeCompareBase (a b : String) : ℤ :=
  strCmpAux (strToLower a).data (strToLower b).data

/-- JS `new Date(s).getTime()` as `some` epoch value, or `none` for an
invalid date (`NaN`).  The parse itself is abstracted to "decimal digit
strings parse, everything else (including `''`) is invalid"; no property
below depends on which strings parse. -/
def jsDateValue (s : String) : Option ℚ :=
  (s.toNat?).map (fun n => (n : ℚ))

/-! ### Data model (§3, shapes used by `dashboard.js`) -/

/-- One category entry of `assessment.breakdown`. -/
structure BreakdownEntry where
  score : Option ℚ := none
  max_score : Option ℚ := none
  percentage : Option ℚ := none
deriving DecidableEq

/-- The `assessment` object attached to an evaluated submission. -/
structure Assessment where
  total_score : Option ℚ := none
  grade : Option String := none
  breakdown : Option (List (String × BreakdownEntry)) := none
  strengths : Option (List String) := none
  improvements : Option (List String) := none
  recommendations : Option (List String) := none
deriving DecidableEq

/-- A submission record as consumed by the dashboard. `status` is required
(the code dereferences it unguarded); every other field may be absent. -/
structure Submission where
  mongo_id : Option String := none
  student_id : Option String := none
  student_name : Option String := none
  file_name : Option String := none
  submitted_at : Option String := none
  status : String
  assessment : Option Assessment := none
deriving DecidableEq

/-- The `statistics` payload of `/api/stats/overview`. -/
structure Statistics where
  total_submissions : Option ℚ := none
  evaluated : Option ℚ := none
  pending : Option ℚ := none
  average_score : Option ℚ := none
  pass_rate : Option ℚ := none
deriving DecidableEq

/-- Initial value of the module-level `statistics = {}`. -/
def emptyStatistics : Statistics := {}

/-! ### API Gateway Client (`apiCall`, lines 105-140) -/

inductive Severity
  | info
  | success
  | error
deriving DecidableEq

/-- One `showNotification(message, type)` call. -/
structure Notif where
  message : String
  severity : Severity
deriving DecidableEq

/-- The JSON envelope of a response.  A missing `success` field is falsy in
JS, which the Boolean `success := false` also captures. -/
structure Envelope where
  success : Bool := false
  error : Option String := none
  message : Option String := none
  submissions : Option (List Submission) := none
  statistics : Option Statistics := none
  monitoring_active : Option Bool := none
  submission : Option Submission := none
  download_url : Option String := none
deriving DecidableEq

/-- What `fetch` hands back to `apiCall`: a thrown transport/parse error, a
response without a JSON content type, or a JSON envelope with its HTTP
status. -/
inductive ApiResponse
  | networkError (msg : String)
  | nonJson (status : ℕ) (text : String)
  | json (status : ℕ) (env : Envelope)
deriving DecidableEq

/-- `Response.ok` of the Fetch API: status in the inclusive range 200-299. -/
def respOk (status : ℕ) : Bool :=
  200 ≤ status && status < 300

/-- Line 130: `data?.error || data?.message ||
`Request failed with status N``. -/
def apiCallMessage (status : ℕ) (env : Envelope) : String :=
  jsOrStr env.error (jsOrStr env.message ("Request failed with status " ++ toString status))

/-- `apiCall` (lines 105-140) restricted to its DOM-free behaviour: the
returned `Except` is the resolved/raised outcome, the list collects the
`showNotification` calls (the catch block notifies once per failure and
rethrows). -/
def apiCall (r : ApiResponse) : Except String Envelope × List Notif :=
  match r with
  | .networkError m =>
      (Except.error m, [⟨"Error: " ++ m, Severity.error⟩])
  | .nonJson status text =>
      let m := if text = "" then "Unexpected response format (status " ++ toString status ++ ")"
               else text
      (Except.error m, [⟨"Error: " ++ m, Severity.error⟩])
  | .json status env =>
      if !respOk status || !env.success then
        let m := apiCallMessage status env
        (Except.error m, [⟨"Error: " ++ m, Severity.error⟩])
      else
        (Except.ok env, [])

/-- Whether `apiCall` on this response throws. -/
def apiFails (r : ApiResponse) : Bool :=
  match (apiCall r).1 with
  | Except.error _ => true
  | Except.ok _ => false

/-! ### Submission Store state and `loadDashboardData` (lines 143-165) -/

/-- The DOM-free dashboard state: the store (`submissions`, `statistics`)
plus the submission list last painted into the table body by
`renderSubmissions`. -/
structure DashState where
  submissions : List Submission
  statistics : Statistics
  rendered : List Submission
deriving DecidableEq

/-- `loadDashboardData` (lines 143-165) given the responses the two
`apiCall`s would receive (`r1` for `/api/submissions`, `r2` for
`/api/stats/overview`; `r2` is only consulted when the first call
succeeds).  Returns the new state and all notifications emitted during the
refresh.  The catch block only logs, and `renderSubmissions()` repaints the
full store list. -/
def loadDashboardData (st : DashState) (r1 r2 : ApiResponse) : DashState × List Notif :=
  match apiCall r1 with
  | (Except.error _, n1) => (st, n1)
  | (Except.ok d1, n1) =>
      let subs := d1.submissions.getD []
      let st1 : DashState := { st with submissions := subs }
      match apiCall r2 with
      | (Except.error _, n2) => (st1, n1 ++ n2)
      | (Except.ok d2, n2) =>
          let st2 : DashState :=
            { st1 with statistics := d2.statistics.getD emptyStatistics,
                       rendered := st1.submissions }
          (st2, n1 ++ n2 ++ [⟨"Data refreshed successfully", Severity.success⟩])

/-- Count of error-severity notifications in an emission list. -/
def errCount (l : List Notif) : ℕ :=
  (l.filter (fun n => n.severity = Severity.error)).length

/-- Count of success-severity notifications in an emission list. -/
def succCount (l : List Notif) : ℕ :=
  (l.filter (fun n => n.severity = Severity.success)).length

/-! ### Monitoring Status Controller (lines 351-371) -/

/-- `startMonitoring` (lines 351-360): state is the `monitoringActive`
flag; the response feeds the single `apiCall`. -/
def startMonitoring (active : Bool) (r : ApiResponse) : Bool × List Notif :=
  match apiCall r with
  | (Except.error _, n) => (active, n)
  | (Except.ok _, n) => (true, n ++ [⟨"Monitoring started successfully", Severity.success⟩])

/-- `stopMonitoring` (lines 362-371). -/
def stopMonitoring (active : Bool) (r : ApiResponse) : Bool × List Notif :=
  match apiCall r with
  | (Except.error _, n) => (active, n)
  | (Except.ok _, n) => (false, n ++ [⟨"Monitoring stopped", Severity.info⟩])

/-! ### Filter (`filterSubmissions`, lines 224-240) -/

/-- One disjunct of `matchesSearch`: the JS pattern
`field && field.toLowerCase().includes(searchTerm)` — the field must be
present and truthy (non-empty) for the substring test to run at all. -/
def fieldSearchHit (field : Option String) (term : String) : Bool :=
  match field with
  | some v => if v = "" then false else strIncludes (strToLower v) term
  | none => false

/-- The filter predicate of `filterSubmissions` (lines 228-237).
`search` is the raw search-input value (lowercased on line 225), `statusF`
the status dropdown value (`""` when unset). -/
def matchesFilter (search statusF : String) (s : Submission) : Bool :=
  let term := strToLower search
  let matchesSearch :=
    fieldSearchHit s.student_id term ||
    fieldSearchHit s.student_name term ||
    fieldSearchHit s.file_name term
  let matchesStatus := statusF = "" || s.status = statusF
  matchesSearch && matchesStatus

/-! ### Sort (`sortTable`, lines 277-321) -/

/-- A JS value produced by the per-column extraction (lines 288-299). -/
inductive JsValue
  | num (q : ℚ)
  | str (s : String)
deriving DecidableEq

/-- `String(v)` as used on line 309. -/
def jsValueToString : JsValue → String
  | .str s => s
  | .num q => jsNumToString q

/-- Field lookup `a[column]` for the directly stored columns. -/
def getField (column : String) (s : Submission) : Option String :=
  if column = "student_id" then s.student_id
  else if column = "student_name" then s.student_name
  else if column = "file_name" then s.file_name
  else if column = "submitted_at" then s.submitted_at
  else if column = "status" then some s.status
  else none

/-- Value extraction (lines 288-299): `score` uses
`a.assessment?.total_score ?? -1` (nullish coalescing, so a present `0`
survives), `grade` uses `a.assessment?.grade || 'Z'`, everything else
`a[column] || ''`. -/
def extractValue (column : String) (s : Submission) : JsValue :=
  if column = "score" then
    .num ((Option.bind s.assessment Assessment.total_score).getD (-1))
  else if column = "grade" then
    .str (jsOrStr (Option.bind s.assessment Assessment.grade) "Z")
  else
    .str (jsOrStr (getField column s) "")

/-- The sentinel-or-score number the `score` column sorts by. -/
def scoreValue (s : Submission) : ℚ :=
  (Option.bind s.assessment Assessment.total_score).getD (-1)

/-- The sentinel-or-grade string the `grade` column sorts by. -/
def gradeValue (s : Submission) : String :=
  jsOrStr (Option.bind s.assessment Assessment.grade) "Z"

/-- JS truthiness of `a.assessment?.grade`: a grade is "had" when present
and non-empty. -/
def hasGrade (s : Submission) : Bool :=
  match Option.bind s.assessment Assessment.grade with
  | some g => g ≠ ""
  | none => false

/-- Typed comparison (lines 301-313); `none` models a `NaN` comparator
result (only reachable through invalid dates).  `number` is only ever
paired with the `score` column and `date` with `submitted_at`, per the
`sortableColumns` table (lines 249-257). -/
def compareValues (ty : String) (va vb : JsValue) : Option ℚ :=
  if ty = "number" then
    match va, vb with
    | .num x, .num y => some (x - y)
    | _, _ => none
  else if ty = "date" then
    match jsDateValue (jsValueToString va), jsDateValue (jsValueToString vb) with
    | some x, some y => some (x - y)
    | _, _ => none
  else
    some ((localeCompareBase (jsValueToString va) (jsValueToString vb) : ℤ) : ℚ)

/-- The full comparator (lines 287-316): extract, compare, apply
direction sign.  A `NaN` result is treated as `0` at the sort boundary,
as ECMA-262 `CompareArrayElements` prescribes. -/
def comparatorValue (column ty dir : String) (a b : Submission) : ℚ :=
  let c := compareValues ty (extractValue column a) (extractValue column b)
  let c := if dir = "asc" then c else Option.map Neg.neg c
  c.getD 0

/-- The "may sort before" relation induced by the comparator. -/
def sortRel (column ty dir : String) (a b : Submission) : Prop :=
  comparatorValue column ty dir a b ≤ 0

instance sortRelDec (column ty dir : String) : DecidableRel (sortRel column ty dir) :=
  fun a b => inferInstanceAs (Decidable (comparatorValue column ty dir a b ≤ 0))

/-- `submissions.sort(comparator)` (line 287).  `Array.prototype.sort` with
a consistent comparator produces the unique stable sorted permutation,
which stable insertion sort computes. -/
def sortSubmissions (column ty dir : String) (l : List Submission) : List Submission :=
  List.insertionSort (sortRel column ty dir) l

/-- The sort view-state: module-level `sortColumn` (initially `null`) and
`sortDirection`. -/
structure SortState where
  sortColumn : Option String := none
  sortDirection : String := "asc"
deriving DecidableEq

/-- The state update at the top of `sortTable` (lines 279-284). -/
def sortTableState (st : SortState) (column : String) : SortState :=
  if st.sortColumn = some column then
    { st with sortDirection := if st.sortDirection = "asc" then "desc" else "asc" }
  else
    { sortColumn := some column, sortDirection := "asc" }

/-- The list the table displays after `sortTable` runs: the store is sorted
in place and `filterSubmissions()` (line 320) then renders the filtered
sorted store. -/
def displayList (search statusF column ty dir : String) (l : List Submission) :
    List Submission :=
  List.filter (fun s => matchesFilter search statusF s) (sortSubmissions column ty dir l)

/-! ### Detail modal (`generateDetailsHTML`, lines 420-513) -/

/-- `formatDate` (lines 550-560): `'N/A'` for a falsy input, otherwise the
locale rendering of the parsed date.  The locale rendering itself is
abstracted (no property depends on its text). -/
def formatDate (o : Option String) : String :=
  match o with
  | none => "N/A"
  | some d =>
      if d = "" then "N/A"
      else match jsDateValue d with
           | some t => "date(" ++ toString t.num ++ ")"
           | none => "Invalid Date"

/-- `getGradeClass` (lines 562-566). -/
def getGradeClass (grade : Option String) : String :=
  match grade with
  | none => "f"
  | some g =>
      match g.data with
      | [] => "f"
      | c :: _ => String.singleton (Char.toLower c)

/-- One rendered row of the score breakdown (lines 475-480). -/
structure BreakdownItemView where
  category : String
  scoreText : String
  maxText : String
  percentText : String
deriving DecidableEq

/-- Line 475-479: `category.replace(/_/g,' ').toUpperCase()`,
`data.score?.toFixed(2) || 0`, `data.max_score || 0`,
`data.percentage?.toFixed(1) || 0`. -/
def breakdownItemView : String × BreakdownEntry → BreakdownItemView
  | (category, data) =>
    { category := strToUpper (String.mk (category.data.map (fun c => if c = '_' then ' ' else c)))
      scoreText := match data.score with
                   | some q => toFixed2 q
                   | none => "0"
      maxText := jsNumToString (jsOrNumZero data.max_score)
      percentText := match data.percentage with
                     | some q => toFixed1 q
                     | none => "0" }

/-- The Assessment Results block rendered when `status === 'evaluated'`
(lines 455-510).  An `Option (List String)` section field is `none` when the
corresponding feedback section is omitted (absent or empty list). -/
structure EvalSection where
  totalScoreText : String
  gradeText : String
  gradeClass : String
  breakdownItems : List BreakdownItemView
  strengths : Option (List String)
  improvements : Option (List String)
  recommendations : Option (List String)
deriving DecidableEq

/-- `section && section.length > 0 ? render : ''` (lines 483, 492, 501). -/
def feedbackSection (o : Option (List String)) : Option (List String) :=
  match o with
  | some l => if 0 < l.length then some l else none
  | none => none

/-- The structured content of the modal body. -/
structure DetailsView where
  studentIdText : String
  studentNameText : String
  fileNameText : String
  dateText : String
  statusText : String
  evalSection : Option EvalSection
deriving DecidableEq

/-- `generateDetailsHTML` (lines 420-513) as a pure projection onto the
interpolated values.  Lines 421-422 substitute `{}` for a missing
`assessment` and `breakdown`; line 465 renders
`total_score?.toFixed(2) || '0'`, line 468 `grade || '-'`. -/
def generateDetailsHTML (submission : Submission) : DetailsView :=
  let assessment := submission.assessment.getD {}
  let breakdown := assessment.breakdown.getD []
  { studentIdText := jsOrStr submission.student_id "N/A"
    studentNameText := jsOrStr submission.student_name "N/A"
    fileNameText := jsOrStr submission.file_name "N/A"
    dateText := formatDate submission.submitted_at
    statusText := strToUpper submission.status
    evalSection :=
      if submission.status = "evaluated" then
        some { totalScoreText := match assessment.total_score with
                                 | some q => toFixed2 q
                                 | none => "0"
               gradeText := jsOrStr assessment.grade "-"
               gradeClass := getGradeClass assessment.grade
               breakdownItems := breakdown.map breakdownItemView
               strengths := feedbackSection assessment.strengths
               improvements := feedbackSection assessment.improvements
               recommendations := feedbackSection assessment.recommendations }
      else none }

/-! ### Helper lemmas -/

theorem chCmp_eq_zero_iff {a b : Char} : chCmp a b = 0 ↔ a = b := by
  unfold chCmp
  constructor
  · intro h
    by_contra hne
    rcases lt_or_gt_of_ne hne with hlt | hgt
    · rw [if_pos hlt] at h
      exact absurd h (by decide)
    · rw [if_neg (lt_asymm hgt), if_pos hgt] at h
      exact absurd h (by decide)
  · intro h
    subst h
    simp

theorem chCmp_antisymm (a b : Char) : chCmp b a = -chCmp a b := by
  unfold chCmp
  rcases lt_trichotomy a b with h | h | h
  · rw [if_neg (lt_asymm h), if_pos h, if_pos h]
    decide
  · subst h
    simp
  · rw [if_pos h, if_neg (lt_asymm h), if_pos h]

theorem chCmp_nonpos_ne_zero {a b : Char} (h1 : chCmp a b ≤ 0) (h2 : chCmp a b ≠ 0) :
    a < b := by
  by_contra hab
  rcases eq_or_lt_of_le (not_lt.mp hab) with h | h
  · exact h2 (chCmp_eq_zero_iff.mpr h.symm)
  · rw [chCmp, if_neg (lt_asymm h), if_pos h] at h1
    exact absurd h1 (by decide)

theorem chCmp_of_lt {a b : Char} (h : a < b) : chCmp a b = -1 := by
  rw [chCmp, if_pos h]

theorem strCmpAux_antisymm : ∀ a b : List Char, strCmpAux b a = -strCmpAux a b
  | [], [] => by simp [strCmpAux]
  | [], _ :: _ => by simp [strCmpAux]
  | _ :: _, [] => by simp [strCmpAux]
  | a :: as, b :: bs => by
    unfold strCmpAux
    rcases eq_or_ne (chCmp a b) 0 with h | h
    · have hb : chCmp b a = 0 := by rw [chCmp_antisymm, h, neg_zero]
      rw [if_pos hb, if_pos h, strCmpAux_antisymm as bs]
    · have hb : chCmp b a ≠ 0 := by
        rw [chCmp_antisymm]
        simpa using h
      rw [if_neg hb, if_neg h, chCmp_antisymm]

theorem strCmpAux_nil_le (c : List Char) : strCmpAux [] c ≤ 0 := by
  cases c <;> simp [strCmpAux]

theorem strCmpAux_trans :
    ∀ a b c : List Char, strCmpAux a b ≤ 0 → strCmpAux b c ≤ 0 → strCmpAux a c ≤ 0
  | [], _, c, _, _ => strCmpAux_nil_le c
  | _ :: _, [], _, h1, _ => by
    rw [strCmpAux] at h1
    exact absurd h1 (by decide)
  | _ :: _, _ :: _, [], _, h2 => by
    rw [strCmpAux] at h2
    exact absurd h2 (by decide)
  | x :: xs, y :: ys, z :: zs, h1, h2 => by
    rw [strCmpAux] at h1 h2 ⊢
    rcases eq_or_ne (chCmp x y) 0 with hxy | hxy
    · have hx : x = y := chCmp_eq_zero_iff.mp hxy
      subst hx
      rw [if_pos hxy] at h1
      rcases eq_or_ne (chCmp x z) 0 with hxz | hxz
      · have hz : x = z := chCmp_eq_zero_iff.mp hxz
        subst hz
        rw [if_pos hxz] at h2 ⊢
        exact strCmpAux_trans xs ys zs h1 h2
      · rw [if_neg hxz] at h2 ⊢
        exact h2
    · rw [if_neg hxy] at h1
      have hlt : x < y := chCmp_nonpos_ne_zero h1 hxy
      rcases eq_or_ne (chCmp y z) 0 with hyz | hyz
      · have hz : y = z := chCmp_eq_zero_iff.mp hyz
        subst hz
        rw [if_neg hxy]
        exact h1
      · rw [if_neg hyz] at h2
        have hlt2 : y < z := chCmp_nonpos_ne_zero h2 hyz
        have hxz : x < z := lt_trans hlt hlt2
        rw [if_neg (by rw [chCmp_of_lt hxz]; decide), chCmp_of_lt hxz]
        decide

theorem localeCompareBase_antisymm (a b : String) :
    localeCompareBase b a = -localeCompareBase a b :=
  strCmpAux_antisymm (strToLower a).data (strToLower b).data

theorem localeCompareBase_trans {a b c : String} (h1 : localeCompareBase a b ≤ 0)
    (h2 : localeCompareBase b c ≤ 0) : localeCompareBase a c ≤ 0 :=
  strCmpAux_trans (strToLower a).data (strToLower b).data (strToLower c).data h1 h2

/-! #### Comparator characterizations -/

theorem comparatorValue_score_asc (a b : Submission) :
    comparatorValue "score" "number" "asc" a b = scoreValue a - scoreValue b := rfl

theorem comparatorValue_score_desc (a b : Submission) :
    comparatorValue "score" "number" "desc" a b = -(scoreValue a - scoreValue b) := rfl

theorem comparatorValue_grade_asc (a b : Submission) :
    comparatorValue "grade" "string" "asc" a b =
      ((localeCompareBase (gradeValue a) (gradeValue b) : ℤ) : ℚ) := rfl

theorem sortRel_score_asc {a b : Submission} :
    sortRel "score" "number" "asc" a b ↔ scoreValue a ≤ scoreValue b := by
  rw [sortRel, comparatorValue_score_asc]
  exact sub_nonpos

theorem sortRel_score_desc {a b : Submission} :
    sortRel "score" "number" "desc" a b ↔ scoreValue b ≤ scoreValue a := by
  rw [sortRel, comparatorValue_score_desc, neg_nonpos]
  exact sub_nonneg

theorem sortRel_grade_asc {a b : Submission} :
    sortRel "grade" "string" "asc" a b ↔
      localeCompareBase (gradeValue a) (gradeValue b) ≤ 0 := by
  rw [sortRel, comparatorValue_grade_asc]
  exact_mod_cast Iff.rfl

theorem scoreValue_of_no_assessment {s : Submission} (h : s.assessment = none) :
    scoreValue s = -1 := by
  simp [scoreValue, h]

theorem gradeValue_of_not_hasGrade {s : Submission} (h : hasGrade s = false) :
    gradeValue s = "Z" := by
  rw [hasGrade] at h
  rw [gradeValue]
  cases hg : Option.bind s.assessment Assessment.grade with
  | none => rfl
  | some g =>
      rw [hg] at h
      simp only [ne_eq, decide_not] at h
      have : g = "" := by
        by_contra hne
        simp [hne] at h
      rw [jsOrStr, this]
      simp

/-! #### `apiCall` failure shape -/

theorem apiCall_fail_shape (r : ApiResponse) (h : apiFails r = true) :
    ∃ m, (apiCall r).1 = Except.error m ∧
      (apiCall r).2 = [⟨"Error: " ++ m, Severity.error⟩] := by
  cases r with
  | networkError m => exact ⟨m, rfl, rfl⟩
  | nonJson status text => exact ⟨_, rfl, rfl⟩
  | json status env =>
      by_cases hc : (!respOk status || !env.success) = true
      · refine ⟨apiCallMessage status env, ?_, ?_⟩ <;> simp [apiCall, hc]
      · simp only [Bool.not_eq_true] at hc
        simp [apiFails, apiCall, hc] at h

theorem apiCall_ok_shape (r : ApiResponse) (h : apiFails r = false) :
    ∃ env, (apiCall r).1 = Except.ok env ∧ (apiCall r).2 = [] := by
  cases r with
  | networkError m => simp [apiFails, apiCall] at h
  | nonJson status text => simp [apiFails, apiCall] at h
  | json status env =>
      by_cases hc : (!respOk status || !env.success) = true
      · simp [apiFails, apiCall, hc] at h
      · simp only [Bool.not_eq_true] at hc
        exact ⟨env, by simp [apiCall, hc], by simp [apiCall, hc]⟩

theorem errCount_single_error (m : String) :
    errCount [⟨m, Severity.error⟩] = 1 := rfl

theorem scoreValue_of_total {s : Submission} {q : ℚ}
    (h : Option.bind s.assessment Assessment.total_score = some q) : scoreValue s = q := by
  simp [scoreValue, h]

instance : IsTotal Submission (sortRel "score" "number" "asc") :=
  ⟨fun a b => by
    rw [sortRel_score_asc, sortRel_score_asc]
    exact le_total _ _⟩

instance : IsTrans Submission (sortRel "score" "number" "asc") :=
  ⟨fun a b c hab hbc => by
    rw [sortRel_score_asc] at hab hbc ⊢
    exact le_trans hab hbc⟩

instance : IsTotal Submission (sortRel "score" "number" "desc") :=
  ⟨fun a b => by
    rw [sortRel_score_desc, sortRel_score_desc]
    exact le_total _ _⟩

instance : IsTrans Submission (sortRel "score" "number" "desc") :=
  ⟨fun a b c hab hbc => by
    rw [sortRel_score_desc] at hab hbc ⊢
    exact le_trans hbc hab⟩

instance : IsTotal Submission (sortRel "grade" "string" "asc") :=
  ⟨fun a b => by
    rw [sortRel_grade_asc, sortRel_grade_asc, localeCompareBase_antisymm]
    omega⟩

instance : IsTrans Submission (sortRel "grade" "string" "asc") :=
  ⟨fun a b c hab hbc => by
    rw [sortRel_grade_asc] at hab hbc ⊢
    exact localeCompareBase_trans hab hbc⟩

theorem fieldSearchHit_iff {o : Option String} {term : String} :
    fieldSearchHit o term = true ↔
      ∃ v, o = some v ∧ v ≠ "" ∧ strIncludes (strToLower v) term = true := by
  cases o with
  | none => simp [fieldSearchHit]
  | some v =>
      by_cases hv : v = ""
      · subst hv
        simp [fieldSearchHit]
      · simp [fieldSearchHit, hv]

/-! ### Claims -/

/-- The filter predicate as claim C2 words it: the submission is admitted
exactly when (the search term is empty, **or** it occurs case-insensitively
as a substring of a present `studentId`, `studentName` or `fileName`) and
the status conjunct holds. -/
def specC2Matches (search statusF : String) (s : Submission) : Prop :=
  (search = "" ∨
    (∃ v, s.student_id = some v ∧ strIncludes (strToLower v) (strToLower search) = true) ∨
    (∃ v, s.student_name = some v ∧ strIncludes (strToLower v) (strToLower search) = true) ∨
    (∃ v, s.file_name = some v ∧ strIncludes (strToLower v) (strToLower search) = true)) ∧
  (statusF = "" ∨ s.status = statusF)

/-- C2, counterexample: a submission with `student_id`, `student_name` and
`file_name` all absent is rejected by the code even under the empty search
term and empty status filter, although the claim ("an empty search term
excludes no submission") admits it. -/
theorem spec_C2_cex :
    matchesFilter "" "" { status := "pending" } = false ∧
    specC2Matches "" "" { status := "pending" } :=
  ⟨by decide, Or.inl rfl, Or.inl rfl⟩

/-- C2 (amended): the filter admits a submission exactly when the search
term occurs case-insensitively in at least one **present, non-empty** field
among `student_id`, `student_name`, `file_name` (so the empty term admits
precisely the submissions with such a field, excluding one lacking all
three) and the status filter is empty or equals the submission's status;
"smith" matches "John Smith" and not "Jane Doe". -/
theorem spec_C2 (search statusF : String) (s : Submission) :
    (matchesFilter search statusF s = true ↔
      (((∃ v, s.student_id = some v ∧ v ≠ "" ∧
            strIncludes (strToLower v) (strToLower search) = true) ∨
        (∃ v, s.student_name = some v ∧ v ≠ "" ∧
            strIncludes (strToLower v) (strToLower search) = true) ∨
        (∃ v, s.file_name = some v ∧ v ≠ "" ∧
            strIncludes (strToLower v) (strToLower search) = true)) ∧
       (statusF = "" ∨ s.status = statusF))) ∧
    matchesFilter "smith" "" { status := "evaluated", student_name := some "John Smith" } = true ∧
    matchesFilter "smith" "" { status := "evaluated", student_name := some "Jane Doe" } = false := by
  refine ⟨?_, by decide, by decide⟩
  rw [matchesFilter]
  simp only [Bool.and_eq_true, Bool.or_eq_true, fieldSearchHit_iff, decide_eq_true_eq]
  rw [or_assoc]

/-- C4: the displayed list is definitionally the filter of the sorted
store, hence a sublist of `sort(L)` (same relative order — filtering never
reorders) and a permutation of the matching elements of `L` (it contains
exactly the elements satisfying the filter predicate). -/
theorem spec_C4 (L : List Submission) (column ty dir search statusF : String) :
    displayList search statusF column ty dir L =
      List.filter (fun s => matchesFilter search statusF s)
        (sortSubmissions column ty dir L) ∧
    List.Sublist (displayList search statusF column ty dir L)
      (sortSubmissions column ty dir L) ∧
    List.Perm (displayList search statusF column ty dir L)
      (List.filter (fun s => matchesFilter search statusF s) L) := by
  refine ⟨rfl, List.filter_sublist _, ?_⟩
  exact List.Perm.filter _ (List.perm_insertionSort _ L)

/-- C5: clicking the currently selected sort key keeps the key and toggles
the direction ascending↔descending; clicking a different key (including the
initial `null` column state) adopts that key and resets the direction to
ascending. -/
theorem spec_C5 (st : SortState) (k : String) :
    (st.sortColumn = some k →
      (sortTableState st k).sortColumn = some k ∧
      (st.sortDirection = "asc" → (sortTableState st k).sortDirection = "desc") ∧
      (st.sortDirection = "desc" → (sortTableState st k).sortDirection = "asc")) ∧
    (st.sortColumn ≠ some k →
      sortTableState st k = { sortColumn := some k, sortDirection := "asc" }) := by
  constructor
  · intro h
    rw [sortTableState, if_pos h]
    refine ⟨h, fun hd => ?_, fun hd => ?_⟩
    · simp [hd]
    · rw [hd]
      simp
  · intro h
    rw [sortTableState, if_neg h]

/-- C5 witness at a concrete state. -/
theorem spec_C5_witness :
    (sortTableState ⟨some "score", "asc"⟩ "score").sortColumn = some "score" ∧
    (sortTableState ⟨some "score", "asc"⟩ "score").sortDirection = "desc" ∧
    sortTableState ⟨some "score", "desc"⟩ "grade" =
      { sortColumn := some "grade", sortDirection := "asc" } := by
  have h1 := (spec_C5 ⟨some "score", "asc"⟩ "score").1 rfl
  have h2 := (spec_C5 ⟨some "score", "desc"⟩ "grade").2 (by decide)
  exact ⟨h1.1, h1.2.1 rfl, h2⟩

/-- C7: a failed `monitor/start` request leaves `monitoringActive`
unchanged (never optimistically flipped) and emits exactly one
error-severity notification and no success notification; only a successful
request sets the state active and fires one success notification. -/
theorem spec_C7 (active : Bool) (r : ApiResponse) :
    (apiFails r = true →
      (startMonitoring active r).1 = active ∧
      errCount (startMonitoring active r).2 = 1 ∧
      succCount (startMonitoring active r).2 = 0) ∧
    (apiFails r = false →
      (startMonitoring active r).1 = true ∧
      succCount (startMonitoring active r).2 = 1 ∧
      errCount (startMonitoring active r).2 = 0) := by
  constructor
  · intro h
    obtain ⟨m, h1, h2⟩ := apiCall_fail_shape r h
    have hpair : apiCall r = (Except.error m, [⟨"Error: " ++ m, Severity.error⟩]) :=
      Prod.ext h1 h2
    rw [startMonitoring, hpair]
    exact ⟨rfl, rfl, rfl⟩
  · intro h
    obtain ⟨env, h1, h2⟩ := apiCall_ok_shape r h
    have hpair : apiCall r = (Except.ok env, []) := Prod.ext h1 h2
    rw [startMonitoring, hpair]
    exact ⟨rfl, rfl, rfl⟩

/-- C7 witness: a network failure on `monitor/start` from the inactive
state. -/
theorem spec_C7_witness :
    (startMonitoring false (ApiResponse.networkError "Failed to fetch")).1 = false ∧
    errCount (startMonitoring false (ApiResponse.networkError "Failed to fetch")).2 = 1 ∧
    succCount (startMonitoring false (ApiResponse.networkError "Failed to fetch")).2 = 0 := by
  exact (spec_C7 false (ApiResponse.networkError "Failed to fetch")).1 rfl

/-- The message-priority rule as claim C8 words it: the `error` field if
present, otherwise the `message` field if present, otherwise the generic
text — presence alone, ignoring emptiness. -/
def specC8Message (status : ℕ) (env : Envelope) : String :=
  match env.error with
  | some e => e
  | none =>
      match env.message with
      | some m => m
      | none => "Request failed with status " ++ toString status

/-- C8, counterexample: with `error` present but empty (`""`) and
`message` `"boom"`, the code's `||` chain skips the falsy `error` field and
produces `"boom"`, while the claimed presence-based priority would produce
`""`. -/
theorem spec_C8_cex :
    (apiCall (ApiResponse.json 500
        { success := false, error := some "", message := some "boom" })).1 =
      Except.error "boom" ∧
    specC8Message 500 { success := false, error := some "", message := some "boom" } = "" ∧
    ("boom" : String) ≠ "" := by
  exact ⟨rfl, rfl, by decide⟩

/-- C8 (amended): on a JSON response with failing HTTP status or failing
envelope flag, `apiCall` raises an error whose message is the `error` field
if present **and non-empty**, else the `message` field if present and
non-empty, else `"Request failed with status N"`. -/
theorem spec_C8 (status : ℕ) (env : Envelope)
    (h : respOk status = false ∨ env.success = false) :
    ∃ m, (apiCall (ApiResponse.json status env)).1 = Except.error m ∧
      (∀ e, env.error = some e → e ≠ "" → m = e) ∧
      ((env.error = none ∨ env.error = some "") →
        ∀ m2, env.message = some m2 → m2 ≠ "" → m = m2) ∧
      ((env.error = none ∨ env.error = some "") →
        (env.message = none ∨ env.message = some "") →
        m = "Request failed with status " ++ toString status) := by
  have hc : (!respOk status || !env.success) = true := by
    rcases h with h | h <;> simp [h]
  refine ⟨apiCallMessage status env, by simp [apiCall, hc], ?_, ?_, ?_⟩
  · intro e he hne
    rw [apiCallMessage, he]
    simp [jsOrStr, hne]
  · rintro (h0 | h0) m2 hm2 hne <;> rw [apiCallMessage, h0, hm2] <;> simp [jsOrStr, hne]
  · rintro (h0 | h0) (h1 | h1) <;> rw [apiCallMessage, h0, h1] <;> simp [jsOrStr]

/-- C8 witness: status 500 with a non-empty `error` field. -/
theorem spec_C8_witness :
    (apiCall (ApiResponse.json 500 { success := false, error := some "E" })).1 =
      Except.error "E" := by
  obtain ⟨m, hm, h1, -, -⟩ := spec_C8 500 { success := false, error := some "E" } (Or.inl rfl)
  rw [hm, h1 "E" rfl (by decide)]

/-- C9: `generateDetailsHTML` is total on an `evaluated` submission with no
`assessment`: the empty-object defaults give a rendered total score of
`"0"`, the `'-'` grade placeholder with grade class `"f"`, an empty
breakdown, and the strengths/improvements/recommendations sections
omitted. -/
theorem spec_C9 (s : Submission) (h1 : s.status = "evaluated") (h2 : s.assessment = none) :
    (generateDetailsHTML s).evalSection =
      some { totalScoreText := "0", gradeText := "-", gradeClass := "f",
             breakdownItems := [], strengths := none, improvements := none,
             recommendations := none } := by
  simp [generateDetailsHTML, h1, h2, getGradeClass, jsOrStr, feedbackSection, Option.getD]

/-- C9 witness: the minimal evaluated submission with no assessment. -/
theorem spec_C9_witness :
    (generateDetailsHTML { status := "evaluated" }).evalSection =
      some { totalScoreText := "0", gradeText := "-", gradeClass := "f",
             breakdownItems := [], strengths := none, improvements := none,
             recommendations := none } :=
  spec_C9 { status := "evaluated" } rfl rfl

/-- C1 concrete refresh inputs: old store with one submission, a
successful submissions call delivering a new snapshot, then a failing
statistics call. -/
def c1OldSub : Submission := { mongo_id := some "old", status := "pending" }

def c1NewSub : Submission := { mongo_id := some "new", status := "pending" }

def c1State : DashState := ⟨[c1OldSub], {}, [c1OldSub]⟩

def c1Resp1 : ApiResponse :=
  ApiResponse.json 200 { success := true, submissions := some [c1NewSub] }

def c1Resp2 : ApiResponse := ApiResponse.networkError "Failed to fetch"

/-- C1, counterexample: a refresh whose statistics call fails is a failed
refresh (one error notification, no success notification), yet the store's
submission list has already been replaced by the new snapshot — replacement
is not all-or-nothing over the whole refresh. -/
theorem spec_C1_cex :
    (loadDashboardData c1State c1Resp1 c1Resp2).1.submissions = [c1NewSub] ∧
    [c1NewSub] ≠ c1State.submissions ∧
    errCount (loadDashboardData c1State c1Resp1 c1Resp2).2 = 1 ∧
    succCount (loadDashboardData c1State c1Resp1 c1Resp2).2 = 0 := by
  refine ⟨by decide, by decide, by decide, by decide⟩

/-- C1 (amended): on every failed refresh the rendered (displayed) list and
the statistics snapshot are unchanged and exactly one error-severity (and
no success) notification is emitted; the stored submission list is
unchanged when the submissions call itself fails, but is wholesale-replaced
by the newly fetched snapshot when the submissions call succeeds and only
the statistics call fails (never a record-level mix). -/
theorem spec_C1 (st : DashState) (r1 r2 : ApiResponse)
    (h : apiFails r1 = true ∨ (apiFails r1 = false ∧ apiFails r2 = true)) :
    (loadDashboardData st r1 r2).1.rendered = st.rendered ∧
    (loadDashboardData st r1 r2).1.statistics = st.statistics ∧
    errCount (loadDashboardData st r1 r2).2 = 1 ∧
    succCount (loadDashboardData st r1 r2).2 = 0 ∧
    (apiFails r1 = true → (loadDashboardData st r1 r2).1 = st) ∧
    (apiFails r1 = false →
      ∃ env, (apiCall r1).1 = Except.ok env ∧
        (loadDashboardData st r1 r2).1.submissions = env.submissions.getD []) := by
  rcases h with h1 | ⟨h1, h2⟩
  · obtain ⟨m, e1, n1⟩ := apiCall_fail_shape r1 h1
    have hp1 : apiCall r1 = (Except.error m, [⟨"Error: " ++ m, Severity.error⟩]) :=
      Prod.ext e1 n1
    have hl : loadDashboardData st r1 r2 = (st, [⟨"Error: " ++ m, Severity.error⟩]) := by
      rw [loadDashboardData, hp1]
    rw [hl]
    refine ⟨rfl, rfl, rfl, rfl, fun _ => rfl, fun hf => ?_⟩
    rw [hf] at h1
    exact absurd h1 (by decide)
  · obtain ⟨env, e1, n1⟩ := apiCall_ok_shape r1 h1
    obtain ⟨m, e2, n2⟩ := apiCall_fail_shape r2 h2
    have hp1 : apiCall r1 = (Except.ok env, []) := Prod.ext e1 n1
    have hp2 : apiCall r2 = (Except.error m, [⟨"Error: " ++ m, Severity.error⟩]) :=
      Prod.ext e2 n2
    have hl : loadDashboardData st r1 r2 =
        ({ st with submissions := env.submissions.getD [] },
         [] ++ [⟨"Error: " ++ m, Severity.error⟩]) := by
      rw [loadDashboardData, hp1, hp2]
    rw [hl]
    refine ⟨rfl, rfl, rfl, rfl, fun hf => ?_, fun _ => ⟨env, e1, rfl⟩⟩
    rw [hf] at h1
    exact absurd h1 (by decide)

/-- C1 witness: the concrete failed refresh of the counterexample,
through the amended theorem. -/
theorem spec_C1_witness :
    (loadDashboardData c1State c1Resp1 c1Resp2).1.rendered = c1State.rendered ∧
    (loadDashboardData c1State c1Resp1 c1Resp2).1.statistics = c1State.statistics ∧
    errCount (loadDashboardData c1State c1Resp1 c1Resp2).2 = 1 := by
  have h := spec_C1 c1State c1Resp1 c1Resp2 (Or.inr ⟨by decide, by decide⟩)
  exact ⟨h.1, h.2.1, h.2.2.1⟩

/-- The two-submission store of the C3 example: `A` pending without an
assessment, `B` evaluated with `totalScore` 88. -/
def c3A : Submission := { mongo_id := some "A", status := "pending" }

def c3B : Submission :=
  { mongo_id := some "B", status := "evaluated",
    assessment := some { total_score := some 88 } }

/-- C3: with the store's dichotomy (every submission either lacks an
assessment or carries a numeric `totalScore` in the valid range `0 ≤ q`),
sorting by `score` treats a missing assessment as the sentinel `-1`, lower
than every numeric score: ascending puts all assessment-less submissions
before every scored one, descending puts them after, and the example store
`[A, B]` sorts ascending to `[A, B]`. -/
theorem spec_C3 (L : List Submission)
    (h : ∀ s ∈ L, s.assessment = none ∨ 0 ≤ scoreValue s) :
    (∀ i j : Fin (sortSubmissions "score" "number" "asc" L).length, i < j →
      ((sortSubmissions "score" "number" "asc" L).get j).assessment = none →
      ((sortSubmissions "score" "number" "asc" L).get i).assessment = none) ∧
    (∀ i j : Fin (sortSubmissions "score" "number" "desc" L).length, i < j →
      ((sortSubmissions "score" "number" "desc" L).get i).assessment = none →
      ((sortSubmissions "score" "number" "desc" L).get j).assessment = none) ∧
    sortSubmissions "score" "number" "asc" [c3A, c3B] = [c3A, c3B] := by
  refine ⟨?_, ?_, ?_⟩
  · intro i j hij hj
    simp only [sortSubmissions] at hj ⊢
    have hs := List.sorted_insertionSort (sortRel "score" "number" "asc") L
    have hrel := hs.rel_get_of_lt hij
    rw [sortRel_score_asc, scoreValue_of_no_assessment hj] at hrel
    have hmem := (List.mem_insertionSort (sortRel "score" "number" "asc")).mp
      (List.get_mem (List.insertionSort (sortRel "score" "number" "asc") L) i.1 i.2)
    rcases h _ hmem with hnone | hge
    · exact hnone
    · have hge2 : 0 ≤ scoreValue ((List.insertionSort (sortRel "score" "number" "asc") L).get i) :=
        hge
      linarith
  · intro i j hij hi
    simp only [sortSubmissions] at hi ⊢
    have hs := List.sorted_insertionSort (sortRel "score" "number" "desc") L
    have hrel := hs.rel_get_of_lt hij
    rw [sortRel_score_desc, scoreValue_of_no_assessment hi] at hrel
    have hmem := (List.mem_insertionSort (sortRel "score" "number" "desc")).mp
      (List.get_mem (List.insertionSort (sortRel "score" "number" "desc") L) j.1 j.2)
    rcases h _ hmem with hnone | hge
    · exact hnone
    · have hge2 : 0 ≤ scoreValue ((List.insertionSort (sortRel "score" "number" "desc") L).get j) :=
        hge
      linarith
  · have hr : sortRel "score" "number" "asc" c3A c3B := by
      rw [sortRel_score_asc]
      show (-1 : ℚ) ≤ 88
      norm_num
    rw [sortSubmissions]
    simp only [List.insertionSort]
    rw [List.orderedInsert_nil]
    simp only [List.orderedInsert]
    rw [if_pos hr]

/-- C3 witness: the example store, with the dichotomy hypothesis
discharged concretely. -/
theorem spec_C3_witness :
    sortSubmissions "score" "number" "asc" [c3A, c3B] = [c3A, c3B] := by
  have h := spec_C3 [c3A, c3B] ?hyp
  case hyp =>
    intro s hs
    rcases List.mem_cons.mp hs with h1 | hs2
    · subst h1
      exact Or.inl rfl
    · rcases List.mem_cons.mp hs2 with h2 | h3
      · subst h2
        right
        show (0 : ℚ) ≤ 88
        norm_num
      · exact absurd h3 (List.not_mem_nil _)
  exact h.2.2

/-- Two graded submissions used by the C6 witness. -/
def c6A : Submission :=
  { mongo_id := some "GA", status := "evaluated", assessment := some { grade := some "A" } }

def c6B : Submission :=
  { mongo_id := some "GB", status := "evaluated", assessment := some { grade := some "B" } }

/-- C6: assuming every present grade is a letter code sorting strictly
before the sentinel `'Z'` under the case-insensitive comparison, ascending
grade sort places every submission lacking a grade (absent or empty,
both coerced to `'Z'`) after all graded submissions: in the sorted list a
graded submission never follows a grade-less one. -/
theorem spec_C6 (L : List Submission)
    (h : ∀ s ∈ L, hasGrade s = true → localeCompareBase (gradeValue s) "Z" < 0) :
    ∀ i j : Fin (sortSubmissions "grade" "string" "asc" L).length, i < j →
      hasGrade ((sortSubmissions "grade" "string" "asc" L).get j) = true →
      hasGrade ((sortSubmissions "grade" "string" "asc" L).get i) = true := by
  intro i j hij hj
  by_contra hi
  rw [Bool.not_eq_true] at hi
  simp only [sortSubmissions] at hi hj
  have hs := List.sorted_insertionSort (sortRel "grade" "string" "asc") L
  have hrel := hs.rel_get_of_lt hij
  rw [sortRel_grade_asc, gradeValue_of_not_hasGrade hi] at hrel
  have hmem := (List.mem_insertionSort (sortRel "grade" "string" "asc")).mp
    (List.get_mem (List.insertionSort (sortRel "grade" "string" "asc") L) j.1 j.2)
  have hlt : localeCompareBase
      (gradeValue ((List.insertionSort (sortRel "grade" "string" "asc") L).get j)) "Z" < 0 :=
    h _ hmem hj
  rw [localeCompareBase_antisymm] at hrel
  omega

/-- C6 witness: two graded submissions, hypothesis and conclusion checked
concretely on the sorted output. -/
theorem spec_C6_witness :
    hasGrade ((sortSubmissions "grade" "string" "asc" [c6A, c6B]).get ⟨0, by decide⟩) =
      true := by
  have h := spec_C6 [c6A, c6B] ?hyp
  case hyp =>
    intro s hs hg
    rcases List.mem_cons.mp hs with h1 | hs2
    · subst h1
      decide
    · rcases List.mem_cons.mp hs2 with h2 | h3
      · subst h2
        decide
      · exact absurd h3 (List.not_mem_nil _)
  exact h ⟨0, by decide⟩ ⟨1, by decide⟩ (by decide) (by decide)

/-- C10 concrete pair: an evaluated submission with `totalScore` 0 and a
pending one with no assessment. -/
def c10Zero : Submission :=
  { mongo_id := some "Z0", status := "evaluated",
    assessment := some { total_score := some 0 } }

def c10Missing : Submission := { mongo_id := some "M", status := "pending" }

/-- C10: the nullish-coalescing extraction keeps a present `totalScore` of
`0` while an absent assessment becomes the sentinel `-1`; the ascending
score comparator therefore strictly (not as a tie) orders a
missing-assessment submission before a zero-scored one, a zero-scored
submission never precedes a missing-assessment one in the ascending output,
and `[zero, missing]` sorts to `[missing, zero]`. -/
theorem spec_C10 (L : List Submission) :
    (∀ s, s.assessment = none → scoreValue s = -1) ∧
    (∀ s a, s.assessment = some a → a.total_score = some 0 → scoreValue s = 0) ∧
    (∀ a b, a.assessment = none →
      Option.bind b.assessment Assessment.total_score = some 0 →
      comparatorValue "score" "number" "asc" a b < 0) ∧
    (∀ i j : Fin (sortSubmissions "score" "number" "asc" L).length, i < j →
      Option.bind ((sortSubmissions "score" "number" "asc" L).get i).assessment
        Assessment.total_score = some 0 →
      ((sortSubmissions "score" "number" "asc" L).get j).assessment ≠ none) ∧
    sortSubmissions "score" "number" "asc" [c10Zero, c10Missing] = [c10Missing, c10Zero] := by
  refine ⟨?_, ?_, ?_, ?_, ?_⟩
  · intro s hs
    exact scoreValue_of_no_assessment hs
  · intro s a hs ha
    rw [scoreValue, hs]
    simp [ha]
  · intro a b ha hb
    rw [comparatorValue_score_asc, scoreValue_of_no_assessment ha, scoreValue_of_total hb]
    norm_num
  · intro i j hij hi hj
    simp only [sortSubmissions] at hi hj
    have hs := List.sorted_insertionSort (sortRel "score" "number" "asc") L
    have hrel := hs.rel_get_of_lt hij
    rw [sortRel_score_asc, scoreValue_of_no_assessment hj, scoreValue_of_total hi] at hrel
    linarith
  · have hne : ¬ sortRel "score" "number" "asc" c10Zero c10Missing := by
      rw [sortRel_score_asc]
      show ¬ ((0 : ℚ) ≤ -1)
      norm_num
    rw [sortSubmissions]
    simp only [List.insertionSort]
    rw [List.orderedInsert_nil]
    simp only [List.orderedInsert]
    rw [if_neg hne]

/-- C10 witness: the extraction values and the strict comparator outcome at
the concrete pair. -/
theorem spec_C10_witness :
    scoreValue c10Missing = -1 ∧ scoreValue c10Zero = 0 ∧
    comparatorValue "score" "number" "asc" c10Missing c10Zero < 0 ∧
    sortSubmissions "score" "number" "asc" [c10Zero, c10Missing] =
      [c10Missing, c10Zero] := by
  have h := spec_C10 ([] : List Submission)
  exact ⟨h.1 c10Missing rfl, h.2.1 c10Zero { total_score := some 0 } rfl rfl,
         h.2.2.1 c10Missing c10Zero rfl rfl, h.2.2.2.2⟩

end Dashboard
